import Mathlib

/-!
Shallow embedding of the `fakes` library (src/fakes.go, the current version of
the file: the `FakeService` with chaos injection, lines 100-319) together with
the small amount of gin/testify collaborator behavior the endpoints rely on
(header writing, `render.Data`, `assert.GreaterOrEqual` message handling).

Conventions of the embedding:
- Go `int` fields become `Int`.
- `rand.Intn(100)` becomes an explicit `draw : Nat` parameter; theorems that
  need it carry the hypothesis `draw < 100`.
- The gin handler callbacks (`Handler`, `FailureHandler`) become abstract
  functions `HttpResponse → HttpResponse`; a `nil` Go function value becomes
  `none`, and calling a `nil` function becomes the `GoPanic.nilFunctionCall`
  outcome, mirroring the run-time panic.
- The `Expectation` callback cannot alter the response (it only runs test
  assertions), so only its presence is modelled.
-/

namespace Fakes

/-- The response as gin builds it: the status written by `Render`
(0 while not yet written), the response header map, and the body bytes. -/
structure HttpResponse where
  status : Int
  headers : List (String × String)
  body : String
deriving DecidableEq, Repr

/-- The response writer state a handler sees before anything was written. -/
def emptyResponse : HttpResponse := { status := 0, headers := [], body := "" }

/-- gin `Context.Header(key, value)`: an empty value deletes the header,
otherwise the header is set, replacing any previous value. -/
def setHeader (hs : List (String × String)) (key value : String) : List (String × String) :=
  if value = "" then hs.filter (fun p => p.1 ≠ key)
  else (hs.filter (fun p => p.1 ≠ key)) ++ [(key, value)]

/-- Look a header up in the response header map. -/
def getHeader (hs : List (String × String)) (key : String) : Option String :=
  (hs.find? (fun p => p.1 = key)).map (fun p => p.2)

/-- gin `render.writeContentType`: sets Content-Type only when it is absent. -/
def writeContentType (hs : List (String × String)) (value : String) : List (String × String) :=
  if hs.any (fun p => p.1 = "Content-Type") then hs else hs ++ [("Content-Type", value)]

/-- A Go run-time panic observable from the handler. -/
inductive GoPanic where
  | nilFunctionCall
deriving DecidableEq, Repr

/-- `Endpoint` (src/fakes.go lines 158-186). Defaults are Go zero values. -/
structure Endpoint where
  path : String := ""
  response : String := ""
  statusCode : Int := 0
  methods : List String := []
  contentType : String := ""
  headers : List (String × String) := []
  handler : Option (HttpResponse → HttpResponse) := none
  failureRatePercent : Int := 0
  failureHandler : Option (HttpResponse → HttpResponse) := none
  maxFailureCount : Int := 0
  hasExpectation : Bool := false
  calls : Int := 0

/-- `Endpoint.recordCall` (lines 190-195): increments `calls` under the
endpoint's mutex. -/
def Endpoint.recordCall (e : Endpoint) : Endpoint := { e with calls := e.calls + 1 }

/-- `FakeService` (lines 122-129); the gin engine and the httptest server are
the external collaborators and carry no modelled state beyond the endpoints. -/
structure FakeService where
  endpoints : List Endpoint := []
  port : Int := 0
  baseURL : String := ""

/-- `New(opts...)` (lines 133-146). -/
def New (opts : List (FakeService → FakeService)) : FakeService :=
  opts.foldl (fun f o => o f) { endpoints := [], port := 0, baseURL := "" }

/-- `WithPort` (lines 148-152). -/
def WithPort (port : Int) : FakeService → FakeService :=
  fun f => { f with port := port }

/-- The full standard method set used when `Methods` is empty (lines 212-222). -/
def allMethods : List String :=
  ["GET", "DELETE", "HEAD", "OPTIONS", "PATCH", "POST", "PUT", "TRACE", "CONNECT"]

/-- `shouldReturnError` (lines 281-283): `failureRatePercent > rand.Intn(100)`,
with the draw from [0, 100) passed explicitly. -/
def shouldReturnError (failureRatePercent : Int) (draw : Nat) : Bool :=
  failureRatePercent > (draw : Int)

/-- `FakeService.Endpoint` registration (lines 204-223 and 272): appends the
endpoint, unconditionally sets `MaxFailureCount` to 3 (line 207), and expands
an empty method set to the full standard set. Its Go return type is only
`*FakeService`: registration has no error outcome. -/
def FakeService.Endpoint (f : FakeService) (e : Endpoint) : FakeService :=
  let e1 : Fakes.Endpoint := { e with maxFailureCount := 3 }
  let e2 : Fakes.Endpoint :=
    if e1.methods.isEmpty then { e1 with methods := allMethods } else e1
  { f with endpoints := f.endpoints ++ [e2] }

/-- The chaos condition of line 231-232, evaluated on the state after
`recordCall`: `shouldReturnError(e.FailureRatePercent) && e.calls <= e.MaxFailureCount-1`.
Note the `calls` it reads is the post-increment value. -/
def chaosTriggers (e : Endpoint) (draw : Nat) : Bool :=
  shouldReturnError e.failureRatePercent draw && decide (e.calls ≤ e.maxFailureCount - 1)

/-- What one dispatch of a matched request produced: the updated endpoint, the
response (or a panic), and which steps of the handler body ran. -/
structure DispatchResult where
  endpoint : Endpoint
  outcome : Except GoPanic HttpResponse
  failurePath : Bool
  expectationRan : Bool
  handlerRan : Bool
  renderRan : Bool

/-- The response headers as prepared on the normal path before the override
handler or `c.Render` run (lines 243-259): Content-Type (defaulting to
application/json), then every entry of `Headers`. -/
def prepResponse (e : Endpoint) : HttpResponse :=
  let hs := if e.contentType ≠ "" then setHeader [] "Content-Type" e.contentType
            else setHeader [] "Content-Type" "application/json"
  let hs := e.headers.foldl (fun acc p => setHeader acc p.1 p.2) hs
  { status := 0, headers := hs, body := "" }

/-- Status resolution of lines 249-252: 0 defaults to `http.StatusOK`. -/
def resolvedStatus (e : Endpoint) : Int :=
  if e.statusCode = 0 then 200 else e.statusCode

/-- `c.Render(status, render.Data{ContentType: e.ContentType, Data: []byte(e.Response)})`
(lines 266-269): writes the status, lets `render.Data` set the Content-Type
only if absent, and appends the body bytes. -/
def renderData (r : HttpResponse) (status : Int) (contentType data : String) : HttpResponse :=
  { status := status, headers := writeContentType r.headers contentType, body := r.body ++ data }

/-- The failure branch of the handler (lines 231-235): invoke `FailureHandler`
on the untouched response writer; a nil handler panics. -/
def failureBranch (e : Endpoint) : DispatchResult :=
  match e.failureHandler with
  | none =>
    { endpoint := e, outcome := Except.error GoPanic.nilFunctionCall,
      failurePath := true, expectationRan := false, handlerRan := false, renderRan := false }
  | some fh =>
    { endpoint := e, outcome := Except.ok (fh emptyResponse),
      failurePath := true, expectationRan := false, handlerRan := false, renderRan := false }

/-- The normal path of the handler (lines 237-269): expectation, Content-Type,
headers, then either the override `Handler` (and stop) or `c.Render`. -/
def normalBranch (e : Endpoint) : DispatchResult :=
  match e.handler with
  | some h =>
    { endpoint := e, outcome := Except.ok (h (prepResponse e)),
      failurePath := false, expectationRan := e.hasExpectation, handlerRan := true, renderRan := false }
  | none =>
    { endpoint := e,
      outcome := Except.ok (renderData (prepResponse e) (resolvedStatus e) e.contentType e.response),
      failurePath := false, expectationRan := e.hasExpectation, handlerRan := false, renderRan := true }

/-- The whole handler closure registered at lines 225-270: `recordCall`, then
the chaos check on the post-increment counter, then the failure branch or the
normal branch. -/
def handleRequest (e : Endpoint) (draw : Nat) : DispatchResult :=
  if chaosTriggers e.recordCall draw then failureBranch e.recordCall
  else normalBranch e.recordCall

/-- A sequence of matched requests against one endpoint, one draw per request;
returns the final endpoint state and, per request, whether the failure path ran. -/
def runRequests (e : Endpoint) (draws : List Nat) : Endpoint × List Bool :=
  match draws with
  | [] => (e, [])
  | d :: rest =>
    let r := handleRequest e d
    let rec2 := runRequests r.endpoint rest
    (rec2.1, r.failurePath :: rec2.2)

/-- The message testify renders for the coverage assertion at line 292:
`msgAndArgs` is the single string, so it is used verbatim - the `%s` is never
substituted with the path. -/
def coverageFailureMessage : String := "endpoint %s has not been called within this test"

/-- `FakeService.TidyUp` (lines 289-295): one `assert.GreaterOrEqual(t, e.calls, 1, msg)`
per endpoint (recording a failure message when `calls < 1`, never aborting),
then `testserver.Close()` unconditionally. Returns the failure messages and
whether the server was closed. -/
def FakeService.TidyUp (f : FakeService) : List String × Bool :=
  (f.endpoints.filterMap (fun e => if (1 : Int) ≤ e.calls then none else some coverageFailureMessage),
   true)

/-- Dispatch of a request matched to endpoint `i` of the service: only that
endpoint's state is replaced by the handler's update. -/
def dispatchAt (f : FakeService) (i : Nat) (draw : Nat) : FakeService × Option DispatchResult :=
  match f.endpoints[i]? with
  | none => (f, none)
  | some e =>
    let r := handleRequest e draw
    ({ f with endpoints := f.endpoints.set i r.endpoint }, some r)

/-! Concurrency model of the handler's accesses to the `calls` field. Each
inbound request runs the handler on its own goroutine, so the ops below can
interleave between two requests; the mutex is the one per-endpoint guard. -/

/-- The atomic operations a handler performs on the shared `calls` field, in
program order. -/
inductive CounterOp where
  | lock
  | unlock
  | incCalls
  | readCalls
deriving DecidableEq, Repr

/-- Program order of the handler's accesses to `calls` (lines 225-232):
`recordCall` takes the mutex, increments, releases (lines 190-195), and then
the chaos-budget condition at line 232 reads `e.calls` with no lock held. -/
def handlerCounterOps : List CounterOp := [.lock, .incCalls, .unlock, .readCalls]

/-- Whether every access (`incCalls`/`readCalls`) in an op list happens while
the mutex is held, starting from the given held-state. -/
def accessesGuarded : List CounterOp → Bool → Bool
  | [], _ => true
  | CounterOp.lock :: rest, _ => accessesGuarded rest true
  | CounterOp.unlock :: rest, _ => accessesGuarded rest false
  | CounterOp.incCalls :: rest, held => held && accessesGuarded rest held
  | CounterOp.readCalls :: rest, held => held && accessesGuarded rest held

/-- Joint state of two concurrent handler invocations on one endpoint:
program counters of threads A and B into `handlerCounterOps`, the mutex owner,
the shared `calls` field, and the value each thread's budget check read. -/
structure RaceState where
  pcA : Nat
  pcB : Nat
  owner : Option Bool
  calls : Nat
  regA : Nat
  regB : Nat
deriving DecidableEq, Repr

/-- Set the program counter of the given thread (`true` = A). -/
def setPc (isA : Bool) (s : RaceState) (pc : Nat) : RaceState :=
  if isA then { s with pcA := pc } else { s with pcB := pc }

/-- One step of the given thread, when its next op is enabled. -/
def threadStep (isA : Bool) (s : RaceState) : Option RaceState :=
  let pc := if isA then s.pcA else s.pcB
  match handlerCounterOps[pc]? with
  | none => none
  | some CounterOp.lock =>
    if s.owner = none then some (setPc isA { s with owner := some isA } (pc + 1)) else none
  | some CounterOp.unlock =>
    if s.owner = some isA then some (setPc isA { s with owner := none } (pc + 1)) else none
  | some CounterOp.incCalls => some (setPc isA { s with calls := s.calls + 1 } (pc + 1))
  | some CounterOp.readCalls =>
    some (setPc isA (if isA then { s with regA := s.calls } else { s with regB := s.calls }) (pc + 1))

/-- The interleaving step relation: either thread takes its next enabled op. -/
def raceStep (s t : RaceState) : Prop :=
  threadStep true s = some t ∨ threadStep false s = some t

/-- Reachability under interleavings of the two handler invocations. -/
def RaceReachable : RaceState → RaceState → Prop :=
  Relation.ReflTransGen raceStep

/-- Both threads at the start, counter 0, mutex free. -/
def raceInit : RaceState :=
  { pcA := 0, pcB := 0, owner := none, calls := 0, regA := 0, regB := 0 }

/-- Both threads finished and both budget checks read the same counter
value 2: the two concurrent requests were evaluated against the same slot. -/
def raceBothReadTwo : RaceState :=
  { pcA := 4, pcB := 4, owner := none, calls := 2, regA := 2, regB := 2 }

/-! Concrete fixtures used by the claim theorems and witnesses. -/

/-- Identity override/failure handler: writes nothing of its own. -/
def idHandler : HttpResponse → HttpResponse := fun r => r

/-- A failure handler in the style of the repository's tests: answers 400. -/
def badRequestHandler : HttpResponse → HttpResponse :=
  fun r => { r with status := 400, body := "\x7b\"error\":\"something bad happened\"\x7d" }

/-- Always-failing chaos endpoint as a user would pass it to registration. -/
def c1Endpoint : Endpoint :=
  { path := "/", response := "\x7b\x7d", failureRatePercent := 100,
    failureHandler := some badRequestHandler }

/-- The state registration stores for `c1Endpoint`: `MaxFailureCount` set to 3,
methods expanded. -/
def c1Registered : Endpoint :=
  { c1Endpoint with maxFailureCount := 3, methods := allMethods }

/-- An endpoint whose caller explicitly asked for a failure budget of 10. -/
def c2Endpoint : Endpoint :=
  { path := "/", response := "\x7b\x7d", failureRatePercent := 100,
    failureHandler := some badRequestHandler, maxFailureCount := 10 }

/-- Chaos enabled but no failure handler configured. -/
def c3Endpoint : Endpoint :=
  { path := "/", response := "\x7b\x7d", failureRatePercent := 100 }

/-- The state registration stores for `c3Endpoint`. -/
def c3Registered : Endpoint :=
  { c3Endpoint with maxFailureCount := 3, methods := allMethods }

/-- A service whose `/hello` endpoint was never called while `/` was called twice. -/
def c5ServiceHello : FakeService :=
  { endpoints := [{ path := "/hello", calls := 0 }, { path := "/", calls := 2 }],
    port := 0, baseURL := "" }

/-- Same service but the uncalled endpoint's path is `/goodbye`. -/
def c5ServiceGoodbye : FakeService :=
  { endpoints := [{ path := "/goodbye", calls := 0 }, { path := "/", calls := 2 }],
    port := 0, baseURL := "" }

/-- Concrete endpoint for the C6 witness: failure rate above 100. -/
def c6WitnessEndpoint : Endpoint :=
  { path := "/", failureRatePercent := 150, maxFailureCount := 3,
    failureHandler := some idHandler }

/-- Endpoint with an override handler plus configured headers. -/
def c7Endpoint : Endpoint :=
  { path := "/", headers := [("X-Custom", "custom-value")], handler := some idHandler }

/-- The response `c7Endpoint`'s dispatch hands back: the status is still
unwritten, but the Content-Type default and the configured header are present. -/
def c7FinalResponse : HttpResponse :=
  { status := 0,
    headers := [("Content-Type", "application/json"), ("X-Custom", "custom-value")],
    body := "" }

/-- The `/hello` round-trip endpoint of the spec's testable property. -/
def helloEndpoint : Endpoint :=
  { path := "/hello", response := "\x7b\"message\":\"hello\"\x7d" }

/-- The state registration stores for `helloEndpoint`. -/
def helloRegistered : Endpoint :=
  { helloEndpoint with maxFailureCount := 3, methods := allMethods }

/-- Two-endpoint service for the dispatch frame witness. -/
def c10Service : FakeService :=
  { endpoints := [helloRegistered, c1Registered], port := 0, baseURL := "" }

/-! Helper lemmas shared by the claim theorems. -/

theorem failureBranch_endpoint (e : Endpoint) : (failureBranch e).endpoint = e := by
  unfold failureBranch; cases e.failureHandler <;> rfl

theorem failureBranch_failurePath (e : Endpoint) : (failureBranch e).failurePath = true := by
  unfold failureBranch; cases e.failureHandler <;> rfl

theorem normalBranch_endpoint (e : Endpoint) : (normalBranch e).endpoint = e := by
  unfold normalBranch; cases e.handler <;> rfl

theorem normalBranch_failurePath (e : Endpoint) : (normalBranch e).failurePath = false := by
  unfold normalBranch; cases e.handler <;> rfl

theorem handleRequest_endpoint (e : Endpoint) (draw : Nat) :
    (handleRequest e draw).endpoint = e.recordCall := by
  unfold handleRequest
  split
  · exact failureBranch_endpoint e.recordCall
  · exact normalBranch_endpoint e.recordCall

theorem handleRequest_failurePath (e : Endpoint) (draw : Nat) :
    (handleRequest e draw).failurePath = chaosTriggers e.recordCall draw := by
  unfold handleRequest
  cases h : chaosTriggers e.recordCall draw
  · simp only [h, Bool.false_eq_true, if_false, normalBranch_failurePath]
  · simp only [h, if_true, failureBranch_failurePath]

theorem recordCall_fields (e : Endpoint) :
    e.recordCall.failureRatePercent = e.failureRatePercent
    ∧ e.recordCall.maxFailureCount = e.maxFailureCount
    ∧ e.recordCall.calls = e.calls + 1
    ∧ e.recordCall.handler = e.handler := ⟨rfl, rfl, rfl, rfl⟩

/-! Claim theorems. -/

/-- C1: the claim says that for `failureRatePercent = 100` and
`maxFailureCount = k` the first `k` matched requests take the failure path and
the failure is delivered exactly while the pre-increment call count is below
`maxFailureCount`. The code instead checks the post-increment counter against
`MaxFailureCount - 1` (line 232 after the increment at line 226), so with the
stored budget `k = 3` only the first two requests fail and the third - whose
pre-increment count 2 is still strictly below 3 - already takes the normal
path. This theorem evaluates the embedded code at that failing input. -/
theorem c1_third_request_takes_normal_path :
    ((New []).Endpoint c1Endpoint).endpoints = [c1Registered]
    ∧ c1Registered.failureRatePercent = 100
    ∧ c1Registered.maxFailureCount = 3
    ∧ (runRequests c1Registered [0, 0, 0, 0]).2 = [true, true, false, false] :=
  ⟨rfl, rfl, rfl, rfl⟩

/-- C2: the claim says an explicitly supplied `maxFailureCount` survives
registration and the default 3 is used only when it is unset. Line 207
(`e.MaxFailureCount = 3`) runs unconditionally, so a caller-supplied budget
of 10 is silently replaced by 3. -/
theorem c2_registration_overwrites_explicit_budget :
    c2Endpoint.maxFailureCount = 10
    ∧ ((New []).Endpoint c2Endpoint).endpoints.map (fun e => e.maxFailureCount) = [3] :=
  ⟨rfl, rfl⟩

/-- C3: the claim says chaos enabled without a failure handler is surfaced as
an explicit, immediate failure at registration or start time. The registration
method's Go return type is only `*FakeService` and neither it nor `Run`
inspects `FailureHandler`, so the misconfigured endpoint is registered without
any error signal; the problem only appears when a request's chaos draw
triggers and the nil `FailureHandler` is called, which panics at request time. -/
theorem c3_misconfiguration_not_surfaced_at_registration :
    ((New []).Endpoint c3Endpoint).endpoints = [c3Registered]
    ∧ (handleRequest c3Registered 0).failurePath = true
    ∧ (handleRequest c3Registered 0).outcome = Except.error GoPanic.nilFunctionCall :=
  ⟨rfl, rfl, rfl⟩

/-- C4: the claim says the budget check and the counter increment form one
critical section under the endpoint's guard and nothing reads `callCount`
without that guard. In the code, `recordCall` locks, increments and unlocks
(lines 190-195), and only afterwards does line 232 read `e.calls` for the
budget check with no lock held: the read access in the handler's op sequence
is unguarded, and interleaving two concurrent requests can reach a state where
both budget checks read the same counter value 2 - both requests evaluated
against the same slot, which one atomic check-and-increment section would make
impossible. -/
theorem c4_budget_check_not_atomic_with_increment :
    accessesGuarded handlerCounterOps false = false
    ∧ RaceReachable raceInit raceBothReadTwo := by
  refine ⟨rfl, ?_⟩
  have h1 : raceStep raceInit ⟨1, 0, some true, 0, 0, 0⟩ := Or.inl rfl
  have h2 : raceStep ⟨1, 0, some true, 0, 0, 0⟩ ⟨2, 0, some true, 1, 0, 0⟩ := Or.inl rfl
  have h3 : raceStep ⟨2, 0, some true, 1, 0, 0⟩ ⟨3, 0, none, 1, 0, 0⟩ := Or.inl rfl
  have h4 : raceStep ⟨3, 0, none, 1, 0, 0⟩ ⟨3, 1, some false, 1, 0, 0⟩ := Or.inr rfl
  have h5 : raceStep ⟨3, 1, some false, 1, 0, 0⟩ ⟨3, 2, some false, 2, 0, 0⟩ := Or.inr rfl
  have h6 : raceStep ⟨3, 2, some false, 2, 0, 0⟩ ⟨3, 3, none, 2, 0, 0⟩ := Or.inr rfl
  have h7 : raceStep ⟨3, 3, none, 2, 0, 0⟩ ⟨4, 3, none, 2, 2, 0⟩ := Or.inl rfl
  have h8 : raceStep ⟨4, 3, none, 2, 2, 0⟩ raceBothReadTwo := Or.inr rfl
  exact Relation.ReflTransGen.tail
    (Relation.ReflTransGen.tail
      (Relation.ReflTransGen.tail
        (Relation.ReflTransGen.tail
          (Relation.ReflTransGen.tail
            (Relation.ReflTransGen.tail
              (Relation.ReflTransGen.tail
                (Relation.ReflTransGen.tail Relation.ReflTransGen.refl h1) h2) h3) h4) h5) h6)
      h7) h8

/-- C5: the claim says `tidyUp` reports one coverage failure per uncalled
endpoint naming that endpoint's path, and closes the socket unconditionally.
One failure per uncalled endpoint and the unconditional close hold, but the
assertion at line 292 passes the format string
`"endpoint %s has not been called within this test"` with no argument for the
`%s`, so the reported message is that literal string: two services whose
uncalled endpoints have different paths produce identical messages, hence the
failure does not name the path. -/
theorem c5_coverage_message_does_not_name_path :
    c5ServiceHello.TidyUp = ([coverageFailureMessage], true)
    ∧ c5ServiceGoodbye.TidyUp = ([coverageFailureMessage], true)
    ∧ coverageFailureMessage = "endpoint %s has not been called within this test" :=
  ⟨rfl, rfl, rfl⟩

/-- C6: the failure decision compares the uniform draw from [0, 100) with
`failureRatePercent` and signals failure exactly when the draw is strictly
below the rate (`shouldReturnError`, line 282); hence a rate at most 0 never
takes the failure path, and a rate at least 100 takes it exactly when the
budget condition of line 232 admits it. -/
theorem c6_failure_decision_draw_semantics (e : Endpoint) (draw : Nat) (h : draw < 100) :
    (shouldReturnError e.failureRatePercent draw = true ↔ (draw : Int) < e.failureRatePercent)
    ∧ (e.failureRatePercent ≤ 0 → (handleRequest e draw).failurePath = false)
    ∧ (100 ≤ e.failureRatePercent →
        (handleRequest e draw).failurePath
          = decide (e.calls + 1 ≤ e.maxFailureCount - 1)) := by
  refine ⟨?_, ?_, ?_⟩
  · simp [shouldReturnError]
  · intro hle
    rw [handleRequest_failurePath]
    have hs : shouldReturnError e.recordCall.failureRatePercent draw = false := by
      simp only [Endpoint.recordCall, shouldReturnError, decide_eq_false_iff_not, not_lt, gt_iff_lt]
      omega
    simp [chaosTriggers, hs]
  · intro h100
    rw [handleRequest_failurePath]
    have hs : shouldReturnError e.recordCall.failureRatePercent draw = true := by
      simp only [Endpoint.recordCall, shouldReturnError, decide_eq_true_eq, gt_iff_lt]
      omega
    unfold chaosTriggers
    rw [hs, Bool.true_and]
    simp [Endpoint.recordCall]

/-- C6 witness: the general theorem applied at rate 150 and draw 0. -/
theorem c6_failure_decision_draw_semantics_witness :
    (0 : Nat) < 100
    ∧ ((shouldReturnError c6WitnessEndpoint.failureRatePercent 0 = true
          ↔ ((0 : Nat) : Int) < c6WitnessEndpoint.failureRatePercent)
       ∧ (c6WitnessEndpoint.failureRatePercent ≤ 0 →
            (handleRequest c6WitnessEndpoint 0).failurePath = false)
       ∧ (100 ≤ c6WitnessEndpoint.failureRatePercent →
            (handleRequest c6WitnessEndpoint 0).failurePath
              = decide (c6WitnessEndpoint.calls + 1 ≤ c6WitnessEndpoint.maxFailureCount - 1))) :=
  ⟨by decide, c6_failure_decision_draw_semantics c6WitnessEndpoint 0 (by decide)⟩

/-- C7 counterexample: the claim says that with an override handler set the
configured headers rendering is not applied. But the handler check at line 261
comes after the Content-Type write (lines 243-247) and the headers loop
(lines 255-259), so the dispatch of `c7Endpoint` - whose override handler
writes nothing - still carries the configured `X-Custom` header. -/
theorem c7_counterexample_headers_applied_with_handler :
    (handleRequest c7Endpoint 0).handlerRan = true
    ∧ (handleRequest c7Endpoint 0).outcome = Except.ok c7FinalResponse
    ∧ getHeader c7FinalResponse.headers "X-Custom" = some "custom-value" :=
  ⟨rfl, rfl, rfl⟩

/-- C7 amended: when the override handler is set, the normal path delegates to
it and stops before `c.Render`, so the literal response body and the
configured status code are not written; the Content-Type and the configured
headers, however, are already applied to the response before the delegation. -/
theorem c7_handler_precedence_amended (e : Endpoint) (h : HttpResponse → HttpResponse)
    (draw : Nat) (hh : e.handler = some h)
    (hc : chaosTriggers e.recordCall draw = false) :
    handleRequest e draw =
      { endpoint := e.recordCall, outcome := Except.ok (h (prepResponse e.recordCall)),
        failurePath := false, expectationRan := e.hasExpectation,
        handlerRan := true, renderRan := false } := by
  have hh2 : e.recordCall.handler = some h := hh
  unfold handleRequest
  simp only [hc, Bool.false_eq_true, if_false]
  unfold normalBranch
  rw [hh2]
  rfl

/-- C7 witness: the amended theorem applied to `c7Endpoint` with the identity
handler and draw 0. -/
theorem c7_handler_precedence_amended_witness :
    (c7Endpoint.handler = some idHandler ∧ chaosTriggers c7Endpoint.recordCall 0 = false)
    ∧ handleRequest c7Endpoint 0 =
        { endpoint := c7Endpoint.recordCall,
          outcome := Except.ok (idHandler (prepResponse c7Endpoint.recordCall)),
          failurePath := false, expectationRan := c7Endpoint.hasExpectation,
          handlerRan := true, renderRan := false } :=
  ⟨⟨rfl, rfl⟩, c7_handler_precedence_amended c7Endpoint idHandler 0 rfl rfl⟩

/-- C8: every matched request increments the endpoint's counter exactly once -
`recordCall` runs at line 226 before the failure/normal split, and no other
statement writes `calls` - so the counter after dispatch is the old counter
plus one on both paths, is monotone, and registration copies the counter
unchanged while leaving previously registered endpoints untouched. -/
theorem c8_call_counter_incremented_once_and_monotone (e : Endpoint) (draw : Nat)
    (f : FakeService) :
    ((handleRequest e draw).endpoint.calls = e.calls + 1)
    ∧ (e.calls ≤ (handleRequest e draw).endpoint.calls)
    ∧ ((FakeService.Endpoint f e).endpoints.map (fun x => x.calls)
        = f.endpoints.map (fun x => x.calls) ++ [e.calls]) := by
  have h1 : (handleRequest e draw).endpoint.calls = e.calls + 1 := by
    rw [handleRequest_endpoint]; rfl
  refine ⟨h1, ?_, ?_⟩
  · rw [h1]; omega
  · unfold FakeService.Endpoint
    simp only []
    split <;> simp

/-- C9: registering `/hello` with body `\x7b"message":"hello"\x7d` and no
explicit status or content type, then dispatching a matched GET request,
yields status 200, Content-Type `application/json`, and exactly the
configured body. -/
theorem c9_hello_roundtrip :
    ((New []).Endpoint helloEndpoint).endpoints = [helloRegistered]
    ∧ helloRegistered.path = "/hello"
    ∧ helloRegistered.methods.contains "GET" = true
    ∧ (handleRequest helloRegistered 0).failurePath = false
    ∧ (handleRequest helloRegistered 0).outcome =
        Except.ok { status := 200, headers := [("Content-Type", "application/json")],
                    body := "\x7b\"message\":\"hello\"\x7d" } :=
  ⟨rfl, rfl, rfl, rfl, rfl⟩

/-- C10: dispatching a request matched to endpoint `i` leaves every other
endpoint's entry untouched, stores for `i` exactly the old endpoint with its
counter incremented, and the handler's endpoint update changes no
configuration field - it is the record update of `calls` alone. -/
theorem c10_dispatch_frame (f : FakeService) (i j draw : Nat) (e : Endpoint)
    (hne : i ≠ j) (he : f.endpoints[i]? = some e) :
    ((dispatchAt f i draw).1.endpoints[j]? = f.endpoints[j]?)
    ∧ ((dispatchAt f i draw).1.endpoints[i]? = some { e with calls := e.calls + 1 })
    ∧ ((dispatchAt f i draw).2 = some (handleRequest e draw))
    ∧ ((handleRequest e draw).endpoint = { e with calls := e.calls + 1 }) := by
  have hlen : i < f.endpoints.length := by
    by_contra hge
    rw [List.getElem?_eq_none (by omega)] at he
    exact Option.noConfusion he
  have hep : (handleRequest e draw).endpoint = { e with calls := e.calls + 1 } := by
    rw [handleRequest_endpoint]; rfl
  unfold dispatchAt
  rw [he]
  refine ⟨?_, ?_, rfl, hep⟩
  · exact List.getElem?_set_ne hne
  · rw [List.getElem?_set_self' ]
    rw [List.getElem?_eq_getElem hlen]
    simp [hep]

/-- C10 witness: the frame theorem applied to a two-endpoint service,
dispatching to endpoint 0 and observing endpoint 1. -/
theorem c10_dispatch_frame_witness :
    ((0 : Nat) ≠ 1 ∧ c10Service.endpoints[0]? = some helloRegistered)
    ∧ (((dispatchAt c10Service 0 0).1.endpoints[1]? = c10Service.endpoints[1]?)
       ∧ ((dispatchAt c10Service 0 0).1.endpoints[0]?
            = some { helloRegistered with calls := helloRegistered.calls + 1 })
       ∧ ((dispatchAt c10Service 0 0).2 = some (handleRequest helloRegistered 0))
       ∧ ((handleRequest helloRegistered 0).endpoint
            = { helloRegistered with calls := helloRegistered.calls + 1 })) :=
  ⟨⟨by decide, rfl⟩, c10_dispatch_frame c10Service 0 1 0 helloRegistered (by decide) rfl⟩

end Fakes
